import Mathlib

/-!
Shallow embedding of `src/novel_agent.py`, a sequential novel-writing
orchestration script: it reads four console inputs, generates an outline
via one chat-completion call, then for each chapter index runs a
write/review/summarize cycle, threading prior chapter summaries into
later writing prompts, and finally prints the newline-joined chapters.

The remote LLM is the only source of nondeterminism; it is modelled as a
function `Endpoint : ChatRequest → Response` passed as a parameter.  The
orchestration is modelled as a pure function producing, besides the
accumulated chapter/summary lists, a trace of LLM-call events in
execution order, so that claims about prompts and call ordering can be
stated directly.
-/

namespace NovelSpec

/-- A chat message exactly as the Python code builds it: a role/content
pair (the `{"role": ..., "content": ...}` dicts). -/
structure Msg where
  role : String
  content : String
deriving DecidableEq

/-- LangChain message objects built inside `call_deepseek_chat`:
`SystemMessage` for role `"system"`, `HumanMessage` for everything else. -/
inductive ChatMessage where
  | system (content : String)
  | human (content : String)
deriving DecidableEq

/-- One request to the remote chat-completion endpoint: model name,
temperature (`0.7` modelled exactly as the rational `7/10`) and the
converted message list. -/
structure ChatRequest where
  model : String
  temperature : Rat
  messages : List ChatMessage
deriving DecidableEq

/-- The response object.  `content = none` models a response object with
no `content` attribute (the `getattr(response, "content", "")` default
branch in the source). -/
structure Response where
  content : Option String
deriving DecidableEq

/-- The remote model: one response per request.  All network
nondeterminism lives in this parameter. -/
abbrev Endpoint := ChatRequest → Response

/-- Default `model` argument of `call_deepseek_chat`. -/
def defaultModel : String := "deepseek-chat"

/-- Default `temperature` argument of `call_deepseek_chat`. -/
def defaultTemperature : Rat := 7 / 10

/-- The message-conversion loop at the top of `call_deepseek_chat`. -/
def toChatMessages (messages : List Msg) : List ChatMessage :=
  messages.map fun m =>
    if m.role = "system" then ChatMessage.system m.content else ChatMessage.human m.content

/-- The request `call_deepseek_chat` sends for a given message list. -/
def chatRequestOf (model : String) (temperature : Rat) (messages : List Msg) : ChatRequest :=
  { model := model, temperature := temperature, messages := toChatMessages messages }

/-- The function `call_deepseek_chat`: converts the dict messages, sends one
request, and returns `getattr(response, "content", "")` — the content field
when present, the empty string otherwise. -/
def call_deepseek_chat (E : Endpoint) (messages : List Msg)
    (model : String) (temperature : Rat) : String :=
  ((E (chatRequestOf model temperature messages)).content).getD ""

/-- Digit accumulator for Python integer-literal parsing: ASCII digits with
single underscores allowed between digits, as `int` accepts. -/
def parseDigitsAux (acc : Nat) : List Char → Option Nat
  | [] => some acc
  | '_' :: c :: cs =>
      if c.isDigit then parseDigitsAux (10 * acc + (c.toNat - 48)) cs else none
  | ['_'] => none
  | c :: cs =>
      if c.isDigit then parseDigitsAux (10 * acc + (c.toNat - 48)) cs else none

/-- A nonempty ASCII digit string (underscore-separated), else `none`. -/
def parseDigits : List Char → Option Nat
  | [] => none
  | c :: cs => if c.isDigit then parseDigitsAux (c.toNat - 48) cs else none

/-- Python `str.strip()` with no argument: drop whitespace from both ends
(structural recursion over the character list). -/
def pyStrip (cs : List Char) : List Char :=
  ((cs.dropWhile Char.isWhitespace).reverse.dropWhile Char.isWhitespace).reverse

/-- Python `int(s.strip())` on the chapter-count input line: strip
whitespace, optional sign, nonempty digit run; `none` models the
`ValueError` branch.  (CPython additionally accepts Unicode digits and
exotic whitespace; every claim below is insensitive to that fringe.) -/
def pyInt (s : String) : Option Int :=
  match pyStrip s.data with
  | '+' :: rest => (parseDigits rest).map fun n => (n : Int)
  | '-' :: rest => (parseDigits rest).map fun n => -(n : Int)
  | cs => (parseDigits cs).map fun n => (n : Int)

/-- The chapter count the orchestration loop actually uses: the parsed
integer, or 5 when parsing fails (the `try/except ValueError` in
`NovelAgent.run`). -/
def effectiveChapterCount (s : String) : Int := (pyInt s).getD 5

/-- Python `str` of a string-to-string dict literal, as interpolated by the
`f"{main_characters}"` in the outline prompt. -/
def pyDictRepr (d : List (String × String)) : String :=
  "\x7b" ++ String.intercalate ", "
    (d.map fun kv => "\x27" ++ kv.1 ++ "\x27: \x27" ++ kv.2 ++ "\x27") ++ "\x7d"

namespace GenerateOutline

/-- System prompt of `GenerateOutline.run`. -/
def system_prompt : String :=
  "你是一位专职于写作规划的AI，请根据用户提供的信息生成详细的小说大纲，包括章节的主要事件、转折等。"

/-- User prompt of `GenerateOutline.run` (the f-string, line by line). -/
def user_prompt (title theme : String) (main_characters : List (String × String))
    (plot_summary : String) (chapter_count : Int) : String :=
  "请根据以下信息生成小说大纲：\n【标题】" ++ title ++
  "\n【主题】" ++ theme ++
  "\n【主要角色】" ++ pyDictRepr main_characters ++
  "\n【剧情概述】" ++ plot_summary ++
  "\n【预计章节数】" ++ toString chapter_count ++
  "\n请用分章节的方式列出主要内容，并保持条理清晰。"

/-- The message list `GenerateOutline.run` sends. -/
def messages (title theme : String) (main_characters : List (String × String))
    (plot_summary : String) (chapter_count : Int) : List Msg :=
  [{ role := "system", content := system_prompt },
   { role := "user",
     content := user_prompt title theme main_characters plot_summary chapter_count }]

/-- `GenerateOutline.run`: build the outline prompt and call the model. -/
def run (E : Endpoint) (title theme : String) (main_characters : List (String × String))
    (plot_summary : String) (chapter_count : Int) : String :=
  call_deepseek_chat E (messages title theme main_characters plot_summary chapter_count)
    defaultModel defaultTemperature

end GenerateOutline

/-- The argument bundle of `WriteChapter.run`. -/
structure WriteArgs where
  outline : String
  prev_summaries : String
  chapter_title : String
  chapter_index : Nat
  target_word_count : Nat
deriving DecidableEq

namespace WriteChapter

/-- Default of the `target_word_count` parameter of `WriteChapter.run`. -/
def defaultTargetWordCount : Nat := 2000

/-- System prompt of `WriteChapter.run`. -/
def system_prompt : String :=
  "你是一位优秀的小说作者，请根据用户提供的小说大纲和前文摘要，写出连贯、完整的本章节正文，文笔优美并注意与前文呼应。"

/-- User prompt of `WriteChapter.run` (the f-string, line by line). -/
def user_prompt (a : WriteArgs) : String :=
  "【小说大纲】\n" ++ a.outline ++
  "\n\n【前文摘要】\n" ++ a.prev_summaries ++
  "\n\n请写第" ++ toString a.chapter_index ++ "章：《" ++ a.chapter_title ++
  "》，目标字数约 " ++ toString a.target_word_count ++ "。"

/-- The message list `WriteChapter.run` sends. -/
def messages (a : WriteArgs) : List Msg :=
  [{ role := "system", content := system_prompt },
   { role := "user", content := user_prompt a }]

/-- `WriteChapter.run`: build the writing prompt and call the model. -/
def run (E : Endpoint) (a : WriteArgs) : String :=
  call_deepseek_chat E (messages a) defaultModel defaultTemperature

end WriteChapter

namespace ReviewChapter

/-- System prompt of `ReviewChapter.run`. -/
def system_prompt : String :=
  "你是一位资深编辑，请对输入的小说章节内容进行审阅，指出可改进之处，如情节节奏、人物塑造、文笔风格等，并给出建议。"

/-- User prompt of `ReviewChapter.run`. -/
def user_prompt (chapter_text : String) : String :=
  "这是章节内容：\n\n" ++ chapter_text ++ "\n\n请给出详细的修改意见和建议。"

/-- The message list `ReviewChapter.run` sends. -/
def messages (chapter_text : String) : List Msg :=
  [{ role := "system", content := system_prompt },
   { role := "user", content := user_prompt chapter_text }]

/-- `ReviewChapter.run`: build the review prompt and call the model. -/
def run (E : Endpoint) (chapter_text : String) : String :=
  call_deepseek_chat E (messages chapter_text) defaultModel defaultTemperature

end ReviewChapter

namespace SummarizeChapter

/-- System prompt of `SummarizeChapter.run`. -/
def system_prompt : String :=
  "你是一位文字总结高手，请为下面的小说章节生成简短且信息密集的摘要，突出本章主要事件、角色发展、与后续剧情可能的衔接。"

/-- User prompt of `SummarizeChapter.run`. -/
def user_prompt (chapter_text : String) : String :=
  "章节内容：\n\n" ++ chapter_text ++ "\n\n请在200字以内给出本章的精简摘要。"

/-- The message list `SummarizeChapter.run` sends. -/
def messages (chapter_text : String) : List Msg :=
  [{ role := "system", content := system_prompt },
   { role := "user", content := user_prompt chapter_text }]

/-- `SummarizeChapter.run`: build the summarization prompt and call the model. -/
def run (E : Endpoint) (chapter_text : String) : String :=
  call_deepseek_chat E (messages chapter_text) defaultModel defaultTemperature

end SummarizeChapter

/-- One LLM-call event of a run, in execution order: the prompt (message
list) sent and the response content received.  Write events additionally
record the structured arguments passed to `WriteChapter.run`. -/
inductive Event where
  | outlineStep (messages : List Msg) (response : String)
  | writeStep (args : WriteArgs) (messages : List Msg) (response : String)
  | reviewStep (chapter_index : Nat) (messages : List Msg) (response : String)
  | summarizeStep (chapter_index : Nat) (messages : List Msg) (response : String)
deriving DecidableEq

/-- The prompt (message list) of an event. -/
def eventMessages : Event → List Msg
  | Event.outlineStep ms _ => ms
  | Event.writeStep _ ms _ => ms
  | Event.reviewStep _ ms _ => ms
  | Event.summarizeStep _ ms _ => ms

/-- Loop state of `NovelAgent.run`: the two append-only lists, plus the
event trace accumulated so far. -/
structure LoopState where
  all_chapters : List String
  all_summaries : List String
  events : List Event
deriving DecidableEq

/-- The synthesized chapter title `f"{title} - 第{i}章"`. -/
def chapterTitleOf (title : String) (i : Nat) : String :=
  title ++ " - 第" ++ toString i ++ "章"

/-- The prior-summaries string: the placeholder for chapter 1, otherwise
`"\n".join(all_summaries)`. -/
def prevSummaryOf (i : Nat) (all_summaries : List String) : String :=
  if i = 1 then "(无)" else String.intercalate "\n" all_summaries

/-- The `WriteChapter.run` arguments built inside one loop iteration:
the outline, the prior-summaries string for the current state, the
synthesized chapter title, the index, and the default word count (the
call site passes no `target_word_count`). -/
def stepWriteArgs (title outline : String) (st : LoopState) (i : Nat) : WriteArgs :=
  { outline := outline
    prev_summaries := prevSummaryOf i st.all_summaries
    chapter_title := chapterTitleOf title i
    chapter_index := i
    target_word_count := WriteChapter.defaultTargetWordCount }

/-- One iteration of the chapter loop in `NovelAgent.run`: write the
chapter, review it, summarize it, and append text and summary to the
lists. -/
def chapterStep (E : Endpoint) (title outline : String) (st : LoopState) (i : Nat) : LoopState :=
  let args : WriteArgs := stepWriteArgs title outline st i
  let chapter_text := WriteChapter.run E args
  let review_text := ReviewChapter.run E chapter_text
  let summary_text := SummarizeChapter.run E chapter_text
  { all_chapters := st.all_chapters ++ [chapter_text]
    all_summaries := st.all_summaries ++ [summary_text]
    events := st.events ++
      [Event.writeStep args (WriteChapter.messages args) chapter_text,
       Event.reviewStep i (ReviewChapter.messages chapter_text) review_text,
       Event.summarizeStep i (SummarizeChapter.messages chapter_text) summary_text] }

/-- The loop state after chapters `1..n` have been processed. -/
def loopStateAt (E : Endpoint) (title outline : String) : Nat → LoopState
  | 0 => { all_chapters := [], all_summaries := [], events := [] }
  | n + 1 => chapterStep E title outline (loopStateAt E title outline n) (n + 1)

/-- The four console input lines of a run. -/
structure Inputs where
  title : String
  theme : String
  plotSummary : String
  chapterCountStr : String
deriving DecidableEq

/-- The hard-coded `main_characters` dict literal in `NovelAgent.run`. -/
def defaultMainCharacters : List (String × String) :=
  [("主角", "默认写一个大概的主角信息"), ("配角A", "可自行扩展")]

/-- The character map a run uses.  In the source it is assigned from a
dict literal inside `run`, independent of every input line. -/
def mainCharactersOf (_inp : Inputs) : List (String × String) := defaultMainCharacters

/-- Everything observable of one run: the outline, the LLM-call trace in
execution order, the two accumulated lists, and the assembled novel
printed at the end. -/
structure RunResult where
  outline : String
  trace : List Event
  chapters : List String
  summaries : List String
  fullNovel : String
deriving DecidableEq

/-- The method `NovelAgent.run`: parse the chapter count (default 5),
generate the outline, run the chapter loop for indices `1..count`
(empty when the parsed count is nonpositive, as Python `range`), and
assemble the full novel with `"\n".join(all_chapters)`. -/
def NovelAgent.run (E : Endpoint) (inp : Inputs) : RunResult :=
  let chapter_count := effectiveChapterCount inp.chapterCountStr
  let main_characters := mainCharactersOf inp
  let outline := GenerateOutline.run E inp.title inp.theme main_characters
    inp.plotSummary chapter_count
  let st := (List.range' 1 chapter_count.toNat).foldl
    (chapterStep E inp.title outline)
    { all_chapters := [], all_summaries := [], events := [] }
  { outline := outline
    trace := Event.outlineStep
      (GenerateOutline.messages inp.title inp.theme main_characters
        inp.plotSummary chapter_count) outline :: st.events
    chapters := st.all_chapters
    summaries := st.all_summaries
    fullNovel := String.intercalate "\n" st.all_chapters }

/-- The outline text of a run (denotation of the single outline call). -/
def outlineOf (E : Endpoint) (inp : Inputs) : String :=
  GenerateOutline.run E inp.title inp.theme (mainCharactersOf inp)
    inp.plotSummary (effectiveChapterCount inp.chapterCountStr)

/-- The arguments `NovelAgent.run` passes to `WriteChapter.run` for
chapter `i` (1-indexed). -/
def writeArgsAt (E : Endpoint) (title outline : String) (i : Nat) : WriteArgs :=
  stepWriteArgs title outline (loopStateAt E title outline (i - 1)) i

/-- The text of chapter `i` as generated by the loop. -/
def chapterTextAt (E : Endpoint) (title outline : String) (i : Nat) : String :=
  WriteChapter.run E (writeArgsAt E title outline i)

/-- The review text for chapter `i`. -/
def reviewTextAt (E : Endpoint) (title outline : String) (i : Nat) : String :=
  ReviewChapter.run E (chapterTextAt E title outline i)

/-- The summary of chapter `i`. -/
def summaryTextAt (E : Endpoint) (title outline : String) (i : Nat) : String :=
  SummarizeChapter.run E (chapterTextAt E title outline i)

/-- The three events of chapter `i`'s cycle, in execution order:
write, then review, then summarize. -/
def cycleEvents (E : Endpoint) (title outline : String) (i : Nat) : List Event :=
  [Event.writeStep (writeArgsAt E title outline i)
     (WriteChapter.messages (writeArgsAt E title outline i))
     (chapterTextAt E title outline i),
   Event.reviewStep i (ReviewChapter.messages (chapterTextAt E title outline i))
     (reviewTextAt E title outline i),
   Event.summarizeStep i (SummarizeChapter.messages (chapterTextAt E title outline i))
     (summaryTextAt E title outline i)]

/-- Whether a request is a review request: review prompts are the only
ones whose system message is the reviewer persona. -/
def isReviewRequest (req : ChatRequest) : Bool :=
  match req.messages with
  | ChatMessage.system c :: _ => c == ReviewChapter.system_prompt
  | _ => false

/-- The sequence of prompts a run sends, in execution order. -/
def promptsOf (r : RunResult) : List (List Msg) := r.trace.map eventMessages

/-- Formalization of "the character map is created from user input": its
content varies with at least one pair of input vectors. -/
def charMapDependsOnUserInput : Prop :=
  ∃ a b : Inputs, mainCharactersOf a ≠ mainCharactersOf b

/-- An endpoint answering every request with the same content, used for
concrete checks. -/
def baseEndpoint : Endpoint := fun _ => { content := some "x" }

/-- An endpoint whose responses carry no content field. -/
def noneEndpoint : Endpoint := fun _ => { content := none }

/-- An endpoint that differs from `baseEndpoint` exactly on review
requests. -/
def reviewTweaked : Endpoint := fun req =>
  if isReviewRequest req then { content := some "altered" } else { content := some "x" }

/-- Concrete console inputs with a chosen chapter-count line. -/
def sampleInputs (c : String) : Inputs :=
  { title := "Stars", theme := "星际", plotSummary := "旅程", chapterCountStr := c }

/-- A concrete review request (for chapter text `"x"`). -/
def sampleReviewRequest : ChatRequest :=
  chatRequestOf defaultModel defaultTemperature (ReviewChapter.messages "x")

/-- The outline of the concrete two-chapter run. -/
def sampleOutline2 : String := outlineOf baseEndpoint (sampleInputs "2")

/-- The write arguments of chapter 2 in the concrete two-chapter run. -/
def sampleArgs2 : WriteArgs :=
  writeArgsAt baseEndpoint (sampleInputs "2").title sampleOutline2 2

/-- The chapter text of chapter 2 in the concrete two-chapter run. -/
def sampleText2 : String :=
  chapterTextAt baseEndpoint (sampleInputs "2").title sampleOutline2 2

/-- The outline of the concrete one-chapter run. -/
def sampleOutline1 : String := outlineOf baseEndpoint (sampleInputs "1")

/-- The write arguments of chapter 1 in the concrete one-chapter run. -/
def sampleArgs1 : WriteArgs :=
  writeArgsAt baseEndpoint (sampleInputs "1").title sampleOutline1 1

/-- The chapter text of chapter 1 in the concrete one-chapter run. -/
def sampleText1 : String :=
  chapterTextAt baseEndpoint (sampleInputs "1").title sampleOutline1 1

/-- Appending the next index to `List.range' 1 n`. -/
theorem range'_one_succ (n : Nat) : List.range' 1 (n + 1) = List.range' 1 n ++ [n + 1] := by
  simpa [Nat.add_comm] using @List.range'_concat 1 1 n

/-- An initial segment of `List.range' 1 n`. -/
theorem take_range'_one (k n : Nat) (h : k ≤ n) :
    (List.range' 1 n).take k = List.range' 1 k := by
  have happ : List.range' 1 k ++ List.range' (1 + 1 * k) (n - k) = List.range' 1 (n - k + k) :=
    List.range'_append 1 k (n - k) 1
  rw [show n - k + k = n from by omega] at happ
  rw [← happ, List.take_left' (List.length_range' 1 1 k)]

/-- Closed form of the loop state: after chapters `1..n`, the chapter
list, summary list and event trace are the images of `1..n` under the
per-chapter denotations. -/
theorem loopStateAt_eq (E : Endpoint) (t o : String) (n : Nat) :
    loopStateAt E t o n =
      { all_chapters := (List.range' 1 n).map (chapterTextAt E t o)
        all_summaries := (List.range' 1 n).map (summaryTextAt E t o)
        events := (List.range' 1 n).flatMap (cycleEvents E t o) } := by
  induction n with
  | zero => rfl
  | succ n ih =>
      have hargs : writeArgsAt E t o (n + 1) =
          stepWriteArgs t o (loopStateAt E t o n) (n + 1) := by
        rw [writeArgsAt, Nat.add_sub_cancel]
      rw [loopStateAt, range'_one_succ]
      simp only [List.map_append, List.flatMap_append, List.map_cons, List.map_nil,
        List.flatMap_cons, List.flatMap_nil, List.append_nil]
      simp only [chapterStep]
      rw [← hargs]
      simp only [cycleEvents, chapterTextAt, summaryTextAt, reviewTextAt]
      rw [ih]

/-- The fold in `NovelAgent.run` computes `loopStateAt`. -/
theorem foldl_chapterStep (E : Endpoint) (t o : String) (n : Nat) :
    (List.range' 1 n).foldl (chapterStep E t o)
      { all_chapters := [], all_summaries := [], events := [] } = loopStateAt E t o n := by
  induction n with
  | zero => rfl
  | succ n ih =>
      rw [range'_one_succ, List.foldl_append, ih]
      rfl

/-- The trace of a run, with the loop state left folded. -/
theorem run_trace_loopState (E : Endpoint) (inp : Inputs) :
    (NovelAgent.run E inp).trace =
      Event.outlineStep
        (GenerateOutline.messages inp.title inp.theme (mainCharactersOf inp)
          inp.plotSummary (effectiveChapterCount inp.chapterCountStr))
        (outlineOf E inp) ::
      (loopStateAt E inp.title (outlineOf E inp)
        (effectiveChapterCount inp.chapterCountStr).toNat).events := by
  rw [NovelAgent.run]
  simp only [outlineOf, foldl_chapterStep]

/-- The trace of a run: the outline event followed by the chapter cycles
for indices `1..count` in order. -/
theorem run_trace (E : Endpoint) (inp : Inputs) :
    (NovelAgent.run E inp).trace =
      Event.outlineStep
        (GenerateOutline.messages inp.title inp.theme (mainCharactersOf inp)
          inp.plotSummary (effectiveChapterCount inp.chapterCountStr))
        (outlineOf E inp) ::
      (List.range' 1 (effectiveChapterCount inp.chapterCountStr).toNat).flatMap
        (cycleEvents E inp.title (outlineOf E inp)) := by
  rw [run_trace_loopState, loopStateAt_eq]

/-- The chapter list of a run. -/
theorem run_chapters (E : Endpoint) (inp : Inputs) :
    (NovelAgent.run E inp).chapters =
      (List.range' 1 (effectiveChapterCount inp.chapterCountStr).toNat).map
        (chapterTextAt E inp.title (outlineOf E inp)) := by
  rw [NovelAgent.run]
  simp only [outlineOf, foldl_chapterStep, loopStateAt_eq]

/-- The summary list of a run. -/
theorem run_summaries (E : Endpoint) (inp : Inputs) :
    (NovelAgent.run E inp).summaries =
      (List.range' 1 (effectiveChapterCount inp.chapterCountStr).toNat).map
        (summaryTextAt E inp.title (outlineOf E inp)) := by
  rw [NovelAgent.run]
  simp only [outlineOf, foldl_chapterStep, loopStateAt_eq]

/-- The assembled novel of a run. -/
theorem run_fullNovel (E : Endpoint) (inp : Inputs) :
    (NovelAgent.run E inp).fullNovel =
      String.intercalate "\n" (NovelAgent.run E inp).chapters := by
  rw [NovelAgent.run]

/-- Components of the write arguments of chapter `j`. -/
theorem writeArgsAt_spec (E : Endpoint) (t o : String) (j : Nat) :
    (writeArgsAt E t o j).chapter_index = j ∧
    (writeArgsAt E t o j).chapter_title = chapterTitleOf t j ∧
    (writeArgsAt E t o j).target_word_count = WriteChapter.defaultTargetWordCount ∧
    (writeArgsAt E t o j).prev_summaries =
      prevSummaryOf j (loopStateAt E t o (j - 1)).all_summaries :=
  ⟨rfl, rfl, rfl, rfl⟩

/-- Inversion: every write event in a run's trace is the write event of
some chapter cycle `j` within `1..count`, with the arguments, messages
and response the loop produces for chapter `j`. -/
theorem writeStep_mem (E : Endpoint) (inp : Inputs) (args : WriteArgs) (msgs : List Msg)
    (resp : String)
    (hmem : Event.writeStep args msgs resp ∈ (NovelAgent.run E inp).trace) :
    ∃ j, j ∈ List.range' 1 (effectiveChapterCount inp.chapterCountStr).toNat ∧
      args = writeArgsAt E inp.title (outlineOf E inp) j ∧
      msgs = WriteChapter.messages args ∧
      resp = chapterTextAt E inp.title (outlineOf E inp) j := by
  rw [run_trace] at hmem
  rcases List.mem_cons.1 hmem with hhead | htail
  · exact absurd hhead (by simp)
  · rcases List.mem_flatMap.1 htail with ⟨j, hj, hin⟩
    refine ⟨j, hj, ?_⟩
    simp only [cycleEvents, List.mem_cons, List.not_mem_nil, or_false,
      Event.writeStep.injEq, reduceCtorEq] at hin
    obtain ⟨ha, hm, hr⟩ := hin
    subst ha
    subst hm
    subst hr
    exact ⟨rfl, rfl, rfl⟩

/-- A writing request is not a review request: its system message is the
author persona, not the reviewer persona. -/
theorem write_request_not_review (a : WriteArgs) :
    isReviewRequest (chatRequestOf defaultModel defaultTemperature
      (WriteChapter.messages a)) = false := by
  show (WriteChapter.system_prompt == ReviewChapter.system_prompt) = false
  decide

/-- A summarization request is not a review request. -/
theorem summarize_request_not_review (t : String) :
    isReviewRequest (chatRequestOf defaultModel defaultTemperature
      (SummarizeChapter.messages t)) = false := by
  show (SummarizeChapter.system_prompt == ReviewChapter.system_prompt) = false
  decide

/-- An outline request is not a review request. -/
theorem outline_request_not_review (x y : String) (mc : List (String × String))
    (p : String) (c : Int) :
    isReviewRequest (chatRequestOf defaultModel defaultTemperature
      (GenerateOutline.messages x y mc p c)) = false := by
  show (GenerateOutline.system_prompt == ReviewChapter.system_prompt) = false
  decide

/-- Two endpoints that agree off review requests produce the same chapter
text. -/
theorem write_run_agree (E1 E2 : Endpoint)
    (h : ∀ req, isReviewRequest req = false → E1 req = E2 req) (a : WriteArgs) :
    WriteChapter.run E1 a = WriteChapter.run E2 a := by
  unfold WriteChapter.run call_deepseek_chat
  rw [h _ (write_request_not_review a)]

/-- Two endpoints that agree off review requests produce the same
summary. -/
theorem summarize_run_agree (E1 E2 : Endpoint)
    (h : ∀ req, isReviewRequest req = false → E1 req = E2 req) (t : String) :
    SummarizeChapter.run E1 t = SummarizeChapter.run E2 t := by
  unfold SummarizeChapter.run call_deepseek_chat
  rw [h _ (summarize_request_not_review t)]

/-- Two endpoints that agree off review requests produce the same
outline. -/
theorem outline_run_agree (E1 E2 : Endpoint)
    (h : ∀ req, isReviewRequest req = false → E1 req = E2 req)
    (x y : String) (mc : List (String × String)) (p : String) (c : Int) :
    GenerateOutline.run E1 x y mc p c = GenerateOutline.run E2 x y mc p c := by
  unfold GenerateOutline.run call_deepseek_chat
  rw [h _ (outline_request_not_review x y mc p c)]

/-- Under two endpoints that agree off review requests, the loop produces
the same chapters, the same summaries, and event-by-event the same
prompts (only review responses may differ). -/
theorem loop_review_agnostic (E1 E2 : Endpoint)
    (h : ∀ req, isReviewRequest req = false → E1 req = E2 req) (t o : String) (n : Nat) :
    (loopStateAt E1 t o n).all_chapters = (loopStateAt E2 t o n).all_chapters ∧
    (loopStateAt E1 t o n).all_summaries = (loopStateAt E2 t o n).all_summaries ∧
    (loopStateAt E1 t o n).events.map eventMessages =
      (loopStateAt E2 t o n).events.map eventMessages := by
  induction n with
  | zero => exact ⟨rfl, rfl, rfl⟩
  | succ n ih =>
      obtain ⟨hc, hs, he⟩ := ih
      have ha : stepWriteArgs t o (loopStateAt E1 t o n) (n + 1) =
          stepWriteArgs t o (loopStateAt E2 t o n) (n + 1) := by
        unfold stepWriteArgs
        rw [hs]
      have hct : WriteChapter.run E1 (stepWriteArgs t o (loopStateAt E1 t o n) (n + 1)) =
          WriteChapter.run E2 (stepWriteArgs t o (loopStateAt E2 t o n) (n + 1)) := by
        rw [ha]
        exact write_run_agree E1 E2 h _
      have hsm : SummarizeChapter.run E1
            (WriteChapter.run E1 (stepWriteArgs t o (loopStateAt E1 t o n) (n + 1))) =
          SummarizeChapter.run E2
            (WriteChapter.run E2 (stepWriteArgs t o (loopStateAt E2 t o n) (n + 1))) := by
        rw [hct]
        exact summarize_run_agree E1 E2 h _
      simp only [loopStateAt, chapterStep]
      refine ⟨?_, ?_, ?_⟩
      · rw [hc, hct]
      · rw [hs, hsm]
      · simp only [List.map_append, List.map_cons, List.map_nil, eventMessages]
        rw [he, hct, ha]

/-- C1: for every run, every write event in the trace passes the
placeholder `"(无)"` as the prior-summaries field when the chapter index
is 1, and otherwise (index at least 2) the newline-join of the summaries
of chapters `1..i-1` in generation order. -/
theorem claim_prior_summaries (E : Endpoint) (inp : Inputs) (args : WriteArgs)
    (msgs : List Msg) (resp : String)
    (hmem : Event.writeStep args msgs resp ∈ (NovelAgent.run E inp).trace) :
    (args.chapter_index = 1 → args.prev_summaries = "(无)") ∧
    (2 ≤ args.chapter_index →
      args.prev_summaries =
        String.intercalate "\n"
          (((NovelAgent.run E inp).summaries).take (args.chapter_index - 1))) := by
  obtain ⟨j, hj, ha, -, -⟩ := writeStep_mem E inp args msgs resp hmem
  have hjn := List.mem_range'_1.1 hj
  obtain ⟨hi, -, -, hp⟩ := writeArgsAt_spec E inp.title (outlineOf E inp) j
  subst ha
  rw [hi, hp]
  constructor
  · intro h1
    rw [h1]
    simp [prevSummaryOf]
  · intro h2
    have hne : j ≠ 1 := by omega
    simp only [prevSummaryOf, if_neg hne]
    congr 1
    rw [run_summaries, ← List.map_take, take_range'_one _ _ (by omega), loopStateAt_eq]

/-- C1 witness: in the concrete two-chapter run over a constant endpoint,
chapter 2's write event is in the trace and satisfies the property. -/
theorem claim_prior_summaries_witness :
    Event.writeStep sampleArgs2 (WriteChapter.messages sampleArgs2) sampleText2 ∈
      (NovelAgent.run baseEndpoint (sampleInputs "2")).trace ∧
    ((sampleArgs2.chapter_index = 1 → sampleArgs2.prev_summaries = "(无)") ∧
     (2 ≤ sampleArgs2.chapter_index →
       sampleArgs2.prev_summaries =
         String.intercalate "\n"
           (((NovelAgent.run baseEndpoint (sampleInputs "2")).summaries).take
             (sampleArgs2.chapter_index - 1)))) :=
  ⟨by decide,
   claim_prior_summaries baseEndpoint (sampleInputs "2") sampleArgs2
     (WriteChapter.messages sampleArgs2) sampleText2 (by decide)⟩

/-- C2: for every numeric chapter-count input `N ≥ 0`, the trace is the
outline call followed by exactly `N` chapter cycles in index order
`1..N`, each cycle being write, then review, then summarize, completed
before the next cycle starts. -/
theorem claim_cycle_order (E : Endpoint) (inp : Inputs) (N : Int)
    (hN : pyInt inp.chapterCountStr = some N) (h0 : 0 ≤ N) :
    ((N.toNat : Int) = N) ∧
    (NovelAgent.run E inp).trace =
      Event.outlineStep
        (GenerateOutline.messages inp.title inp.theme (mainCharactersOf inp)
          inp.plotSummary N)
        (outlineOf E inp) ::
      (List.range' 1 N.toNat).flatMap (cycleEvents E inp.title (outlineOf E inp)) := by
  have hE : effectiveChapterCount inp.chapterCountStr = N := by
    rw [effectiveChapterCount, hN]
    rfl
  refine ⟨Int.toNat_of_nonneg h0, ?_⟩
  rw [run_trace, hE]

/-- C2 witness: the concrete run with chapter-count line `"3"`. -/
theorem claim_cycle_order_witness :
    (((3 : Int).toNat : Int) = 3) ∧
    (NovelAgent.run baseEndpoint (sampleInputs "3")).trace =
      Event.outlineStep
        (GenerateOutline.messages (sampleInputs "3").title (sampleInputs "3").theme
          (mainCharactersOf (sampleInputs "3")) (sampleInputs "3").plotSummary 3)
        (outlineOf baseEndpoint (sampleInputs "3")) ::
      (List.range' 1 (3 : Int).toNat).flatMap
        (cycleEvents baseEndpoint (sampleInputs "3").title
          (outlineOf baseEndpoint (sampleInputs "3"))) :=
  claim_cycle_order baseEndpoint (sampleInputs "3") 3 (by decide) (by decide)

/-- C3: every chapter-count line that does not parse as an integer
(the empty string included) yields the effective chapter count 5, and
the loop then runs exactly 5 cycles. -/
theorem claim_default_count (E : Endpoint) (inp : Inputs)
    (h : pyInt inp.chapterCountStr = none) :
    effectiveChapterCount inp.chapterCountStr = 5 ∧
    (NovelAgent.run E inp).chapters.length = 5 := by
  have h5 : effectiveChapterCount inp.chapterCountStr = 5 := by
    rw [effectiveChapterCount, h]
    rfl
  refine ⟨h5, ?_⟩
  rw [run_chapters, h5]
  simp

/-- C3 witness: the non-numeric line `"abc"` and the empty line both fail
to parse, and the `"abc"` run uses count 5. -/
theorem claim_default_count_witness :
    pyInt (sampleInputs "abc").chapterCountStr = none ∧
    pyInt "" = none ∧
    (effectiveChapterCount (sampleInputs "abc").chapterCountStr = 5 ∧
     (NovelAgent.run baseEndpoint (sampleInputs "abc")).chapters.length = 5) :=
  ⟨by decide, by decide,
   claim_default_count baseEndpoint (sampleInputs "abc") (by decide)⟩

/-- C4: the assembled novel printed after the loop is the newline-join of
the chapter texts, which are exactly the per-index chapter texts in
generation order `1..count` (duplicates preserved, nothing reordered). -/
theorem claim_full_novel (E : Endpoint) (inp : Inputs) :
    (NovelAgent.run E inp).fullNovel =
      String.intercalate "\n" (NovelAgent.run E inp).chapters ∧
    (NovelAgent.run E inp).chapters =
      (List.range' 1 (effectiveChapterCount inp.chapterCountStr).toNat).map
        (chapterTextAt E inp.title (outlineOf E inp)) :=
  ⟨run_fullNovel E inp, run_chapters E inp⟩

/-- C5: review output never reaches a later prompt.  Two runs under
endpoints that agree on every non-review request (they may answer review
requests arbitrarily differently) send identical prompt sequences —
outline, writing, review and summarization prompts alike. -/
theorem claim_review_noninterference (E1 E2 : Endpoint) (inp : Inputs)
    (h : ∀ req, isReviewRequest req = false → E1 req = E2 req) :
    promptsOf (NovelAgent.run E1 inp) = promptsOf (NovelAgent.run E2 inp) := by
  have ho : outlineOf E1 inp = outlineOf E2 inp :=
    outline_run_agree E1 E2 h inp.title inp.theme (mainCharactersOf inp)
      inp.plotSummary (effectiveChapterCount inp.chapterCountStr)
  have hl := loop_review_agnostic E1 E2 h inp.title (outlineOf E1 inp)
    (effectiveChapterCount inp.chapterCountStr).toNat
  unfold promptsOf
  rw [run_trace_loopState, run_trace_loopState, ← ho, List.map_cons, List.map_cons,
    hl.2.2]

/-- C5 witness: concretely, an endpoint altered only on review requests
(answering `"altered"` there instead of `"x"`) yields the same prompt
sequence, while answering that review request differently. -/
theorem claim_review_noninterference_witness :
    promptsOf (NovelAgent.run baseEndpoint (sampleInputs "2")) =
      promptsOf (NovelAgent.run reviewTweaked (sampleInputs "2")) ∧
    baseEndpoint sampleReviewRequest ≠ reviewTweaked sampleReviewRequest :=
  ⟨claim_review_noninterference baseEndpoint reviewTweaked (sampleInputs "2")
     (fun req hreq => by simp [baseEndpoint, reviewTweaked, hreq]),
   by decide⟩

/-- C6 counterexample: the input line `"-3"` parses as the integer `-3`,
so the effective chapter count used by the loop is negative — the claimed
invariant `0 ≤ count` fails for this input string. -/
theorem claim_count_nonneg_counterexample :
    effectiveChapterCount "-3" = -3 ∧ ¬ (0 ≤ effectiveChapterCount "-3") := by
  decide

/-- C6 (amended): for every chapter-count input string that does not
parse as a negative integer, the effective chapter count is nonnegative
(parse failures default to 5). -/
theorem claim_count_nonneg (s : String)
    (h : ∀ n : Int, pyInt s = some n → 0 ≤ n) :
    0 ≤ effectiveChapterCount s := by
  rw [effectiveChapterCount]
  cases hp : pyInt s with
  | none => decide
  | some n =>
      simpa using h n hp

/-- C6 witness: the non-parsing line `"abc"`. -/
theorem claim_count_nonneg_witness :
    (∀ n : Int, pyInt "abc" = some n → 0 ≤ n) ∧
    0 ≤ effectiveChapterCount "abc" := by
  have hnone : pyInt "abc" = none := by decide
  constructor
  · intro n hn
    rw [hnone] at hn
    exact Option.noConfusion hn
  · exact claim_count_nonneg "abc" fun n hn => by
      rw [hnone] at hn
      exact Option.noConfusion hn

/-- C7 counterexample: the character map does not depend on user input —
it is identical for two runs whose four input lines all differ — refuting
"created from user input". -/
theorem claim_char_map_counterexample :
    ¬ charMapDependsOnUserInput ∧
    mainCharactersOf { title := "A", theme := "B", plotSummary := "C", chapterCountStr := "1" } =
      mainCharactersOf { title := "X", theme := "Y", plotSummary := "Z", chapterCountStr := "99" } := by
  constructor
  · rintro ⟨a, b, hne⟩
    exact hne rfl
  · rfl

/-- C7 (amended): the character map is the hard-coded dict literal,
created once per run and immutable; in particular the outline prompt
(the only consumer) always receives exactly that constant. -/
theorem claim_char_map_constant (E : Endpoint) (inp : Inputs) :
    mainCharactersOf inp = defaultMainCharacters ∧
    (NovelAgent.run E inp).trace.head? =
      some (Event.outlineStep
        (GenerateOutline.messages inp.title inp.theme defaultMainCharacters
          inp.plotSummary (effectiveChapterCount inp.chapterCountStr))
        (outlineOf E inp)) := by
  refine ⟨rfl, ?_⟩
  rw [run_trace_loopState]
  rfl

/-- C8: for every endpoint, message list, model identifier and
temperature, the chat call returns the response's content field when
present and the empty string when the response has no content. -/
theorem claim_chat_content (E : Endpoint) (messages : List Msg) (model : String)
    (temperature : Rat) :
    (∀ c, (E (chatRequestOf model temperature messages)).content = some c →
        call_deepseek_chat E messages model temperature = c) ∧
    ((E (chatRequestOf model temperature messages)).content = none →
        call_deepseek_chat E messages model temperature = "") := by
  constructor
  · intro c hc
    rw [call_deepseek_chat, hc]
    rfl
  · intro hn
    rw [call_deepseek_chat, hn]
    rfl

/-- C8 witness: a content-bearing response is returned verbatim; a
content-free response yields the empty string. -/
theorem claim_chat_content_witness :
    call_deepseek_chat baseEndpoint [] defaultModel defaultTemperature = "x" ∧
    call_deepseek_chat noneEndpoint [] defaultModel defaultTemperature = "" :=
  ⟨(claim_chat_content baseEndpoint [] defaultModel defaultTemperature).1 "x" rfl,
   (claim_chat_content noneEndpoint [] defaultModel defaultTemperature).2 rfl⟩

/-- C9: the chapter title in every write event is synthesized as
`<title> - 第N章` from the user-supplied title and the loop index alone
(the right-hand side mentions no outline text, so the title is not
derived from the generated outline). -/
theorem claim_chapter_title (E : Endpoint) (inp : Inputs) (args : WriteArgs)
    (msgs : List Msg) (resp : String)
    (hmem : Event.writeStep args msgs resp ∈ (NovelAgent.run E inp).trace) :
    args.chapter_title =
      inp.title ++ " - 第" ++ toString args.chapter_index ++ "章" := by
  obtain ⟨j, -, ha, -, -⟩ := writeStep_mem E inp args msgs resp hmem
  subst ha
  rfl

/-- C9 witness: chapter 1 of the concrete one-chapter run. -/
theorem claim_chapter_title_witness :
    Event.writeStep sampleArgs1 (WriteChapter.messages sampleArgs1) sampleText1 ∈
      (NovelAgent.run baseEndpoint (sampleInputs "1")).trace ∧
    sampleArgs1.chapter_title =
      (sampleInputs "1").title ++ " - 第" ++ toString sampleArgs1.chapter_index ++ "章" :=
  ⟨by decide,
   claim_chapter_title baseEndpoint (sampleInputs "1") sampleArgs1
     (WriteChapter.messages sampleArgs1) sampleText1 (by decide)⟩

/-- C10: every write event carries the default target word count 2000 —
the orchestrator never overrides it — and its prompt is built from those
arguments (so `2000` is the figure embedded in the prompt text). -/
theorem claim_target_word_count (E : Endpoint) (inp : Inputs) (args : WriteArgs)
    (msgs : List Msg) (resp : String)
    (hmem : Event.writeStep args msgs resp ∈ (NovelAgent.run E inp).trace) :
    args.target_word_count = WriteChapter.defaultTargetWordCount ∧
    WriteChapter.defaultTargetWordCount = 2000 ∧
    msgs = WriteChapter.messages args := by
  obtain ⟨j, -, ha, hm, -⟩ := writeStep_mem E inp args msgs resp hmem
  subst ha
  exact ⟨rfl, rfl, hm⟩

/-- C10 witness: chapter 1 of the concrete one-chapter run. -/
theorem claim_target_word_count_witness :
    Event.writeStep sampleArgs1 (WriteChapter.messages sampleArgs1) sampleText1 ∈
      (NovelAgent.run baseEndpoint (sampleInputs "1")).trace ∧
    (sampleArgs1.target_word_count = WriteChapter.defaultTargetWordCount ∧
     WriteChapter.defaultTargetWordCount = 2000 ∧
     WriteChapter.messages sampleArgs1 = WriteChapter.messages sampleArgs1) :=
  ⟨by decide,
   claim_target_word_count baseEndpoint (sampleInputs "1") sampleArgs1
     (WriteChapter.messages sampleArgs1) sampleText1 (by decide)⟩

end NovelSpec
